import Mathlib

/-!
Verification of `blivet/osinstall.py` (FSSet, BlkidTab, CryptTab,
get_containing_device) via a shallow embedding in Lean.

External collaborators (the device tree, `get_format`, OS calls, the
error-handler callback, process flags) are parameters of the embedding,
bundled in environment structures.  Python strings are Lean `String`s,
with the Python string operations re-implemented structurally over
`List Char` so that concrete instances compute; Python dicts are
insertion-ordered association lists; Python exceptions are `Except`;
device activation side effects are recorded as event lists.
-/

namespace Blivet

/-! ## Python string helpers (structural, kernel-reducible) -/

/-- Lexicographic `≤` on code-point lists: Python string comparison. -/
def lexLe : List Char → List Char → Bool
  | [], _ => true
  | _ :: _, [] => false
  | a :: as, b :: bs =>
    decide (a.toNat < b.toNat) || (decide (a.toNat = b.toNat) && lexLe as bs)

/-- Python string `a <= b`. -/
def strLe (a b : String) : Bool := lexLe a.data b.data

/-- Is `pat` a prefix of `l`? -/
def isPref : List Char → List Char → Bool
  | [], _ => true
  | _ :: _, [] => false
  | p :: ps, c :: cs => p = c && isPref ps cs

/-- Does `l` contain `pat` as a contiguous sublist?  Python `pat in s`. -/
def containsSub (pat : List Char) : List Char → Bool
  | [] => isPref pat []
  | c :: rest => isPref pat (c :: rest) || containsSub pat rest

/-- Python substring test `pat in s`. -/
def strContains (s pat : String) : Bool := containsSub pat.data s.data

/-- Python `s.startswith(pat)`. -/
def strStartsWith (s pat : String) : Bool := isPref pat.data s.data

/-- Split a character list at every character satisfying `p`, keeping
empty fields (like Python `s.split(sep)` for a one-character `sep`). -/
def splitOnPred (p : Char → Bool) : List Char → List (List Char)
  | [] => [[]]
  | c :: rest =>
    if p c then [] :: splitOnPred p rest
    else
      match splitOnPred p rest with
      | [] => [[c]]
      | x :: xs => (c :: x) :: xs

/-- Python `s.split(sep)` for a one-character separator. -/
def pySplitCh (sep : Char) (s : String) : List String :=
  (splitOnPred (· = sep) s.data).map String.mk

/-- Python `s.split()` (split on whitespace runs, dropping empty fields). -/
def splitWS (s : String) : List String :=
  ((splitOnPred Char.isWhitespace s.data).filter (· ≠ [])).map String.mk

/-- Python `line.partition("#")[0]`: the text before the first `#`
(the whole line when there is no `#`). -/
def stripComment (s : String) : String :=
  match splitOnPred (· = '#') s.data with
  | [] => s
  | x :: _ => String.mk x

/-- Python `s.partition(sep)` for a one-character separator: the text
before the first occurrence, the separator itself (empty when absent),
and the rest. -/
def pyPartition (sep : Char) (s : String) : String × String × String :=
  match splitOnPred (· = sep) s.data with
  | [] => (s, "", "")
  | [x] => (String.mk x, "", "")
  | x :: rest =>
    (String.mk x, String.mk [sep], String.mk (List.intercalate [sep] rest))

/-- Python left-justified `"%-Ns" % s`. -/
def padTo (n : Nat) (s : String) : String :=
  s ++ String.mk (List.replicate (n - s.length) ' ')

/-- Render an optional string the way Python `%s` renders `None`. -/
def optStr : Option String → String
  | none => "None"
  | some s => s

/-! ## Data model: formats and devices -/

/-- The attributes of a blivet format object (`device.format`) that
`osinstall.py` reads.  `none` in an `Option` field models both an absent
attribute and a `None` value.  `has_test_mount` models
`hasattr(fmt, "test_mount")`; `test_mount_ok` is the value
`fmt.test_mount()` returns when invoked; `has_mountpoint_attr` models
`hasattr(fmt, "mountpoint")`. -/
structure Fmt where
  type : Option String
  mount_type : Option String
  mountable : Bool
  mountpoint : Option String
  options : String
  check : Bool
  dump : Nat
  has_test_mount : Bool
  test_mount_ok : Bool
  has_mountpoint_attr : Bool
  deriving Repr, DecidableEq

/-- A device as seen by `osinstall.py`: a non-owning reference into the
external device graph, plus the class facts (`isinstance` checks) and
attributes the module reads. -/
structure Device where
  name : String
  path : String
  fmt : Fmt
  encrypted : Bool
  is_network : Bool
  is_optical : Bool
  is_file : Bool
  fstab_spec : String
  fstab_comment : String
  deriving Repr, DecidableEq

/-- `getattr(fmt, "mount_type", fmt.type)`. -/
def Fmt.mountTypeAttr (f : Fmt) : Option String :=
  match f.mount_type with
  | some t => some t
  | none => f.type

/-- The sort key `getattr(d.format, "mountpoint", "")` used by
`mount_filesystems` and `umount_filesystems`. -/
def mpKey (d : Device) : String :=
  (d.fmt.mountpoint).getD ""

/-- `strLe` as a sort relation on strings. -/
def strLeP (a b : String) : Prop := strLe a b = true

instance : DecidableRel strLeP :=
  fun a b => inferInstanceAs (Decidable (strLe a b = true))

/-- Sort relation `key=lambda d: d.path`. -/
def pathLe (a b : Device) : Prop := strLe a.path b.path = true

instance : DecidableRel pathLe :=
  fun a b => inferInstanceAs (Decidable (strLe a.path b.path = true))

/-- Sort relation `key=lambda d: getattr(d.format, "mountpoint", "")` (the
fstab writer's `key=lambda d: d.format.mountpoint` coincides with it on
the devices it sorts, which all carry a mountpoint). -/
def mpLe (a b : Device) : Prop := strLe (mpKey a) (mpKey b) = true

instance : DecidableRel mpLe :=
  fun a b => inferInstanceAs (Decidable (strLe (mpKey a) (mpKey b) = true))

/-- Side effects on devices, recorded in order of occurrence. -/
inductive Event where
  | setup (name : String)
  | mounted (name : String) (mp : String)
  | teardown (name : String)
  | removed (name : String)
  | swapOn (name : String)
  deriving Repr, DecidableEq

/-- The activity state of the named device after replaying `evs` on top
of initial state `b` (`setup` activates, `teardown` deactivates). -/
def finalActive (name : String) : Bool → List Event → Bool
  | b, [] => b
  | b, ev :: rest =>
    match ev with
    | .setup n => finalActive name (if n = name then true else b) rest
    | .teardown n => finalActive name (if n = name then false else b) rest
    | _ => finalActive name b rest

/-! ## Insertion-ordered dictionaries (Python dicts) -/

/-- Python dict assignment `d[k] = v`: updates the value in place when the
key exists (keeping its position), else appends the pair. -/
def dictInsert {α : Type} (k : String) (v : α) : List (String × α) → List (String × α)
  | [] => [(k, v)]
  | (k', v') :: rest =>
    if k' = k then (k, v) :: rest else (k', v') :: dictInsert k v rest

/-! ## FSSet._parse_one_line and FSSet.parse_fstab -/

instance {ε α : Type} [DecidableEq ε] [DecidableEq α] : DecidableEq (Except ε α) := fun
  | .ok a, .ok b => decidable_of_iff (a = b) (by simp)
  | .ok _, .error _ => isFalse (by simp)
  | .error _, .ok _ => isFalse (by simp)
  | .error a, .error b => decidable_of_iff (a = b) (by simp)

/-- The two fstab exceptions raised by `FSSet._parse_one_line`
(`UnrecognizedFSTabEntryError` and `FSTabTypeMismatchError` from
`errors.py`; both subclass `StorageError`). -/
inductive FstabError where
  | unrecognized
  | typeMismatch (msg : String)
  deriving Repr, DecidableEq

/-- External collaborators used while parsing an fstab.  The
`crypt_tab`/`blkid_tab` context passed to `resolve_device` is fixed for
one parse and therefore folded into the environment;`resolve_device`
additionally sees the current device-tree contents. -/
structure ParseEnv where
  /-- `devicetree.resolve_device(devspec, crypt_tab=…, blkid_tab=…, options=…)`. -/
  resolve_device : List Device → String → String → Option Device
  /-- `get_containing_device(devspec, devicetree)` at parse time. -/
  get_containing : String → Option Device
  /-- `get_format(fstype, device=path, exists=True)`. -/
  get_format_ex : String → String → Fmt
  /-- `get_format(fstype)` (no kwargs), used in the nodev branch. -/
  get_format_plain : String → Fmt
  /-- `isinstance(get_format(fstype), get_device_format_class("nodev"))`,
  including the class being found at all. -/
  nodev_class_matches : String → Bool
  /-- `devicetree._add_device(device)`; `.error` models the `ValueError`
  raised on duplicates. -/
  add_device : List Device → Device → Except Unit (List Device)

/-- The fixed virtual mountpoints dropped by `_parse_one_line`
(recreated synthetically by `FSSet` later). -/
def virtualMountpoints : List String :=
  ["/proc", "/sys", "/dev/shm", "/dev/pts", "/sys/fs/selinux",
   "/proc/bus/usb", "/sys/firmware/efi/efivars"]

/-- `NFSDevice(devspec, fmt=get_format(fstype, exists=True, device=devspec))`.
`NFSDevice` is a `NetworkStorageDevice`. -/
def mkNFSDevice (env : ParseEnv) (devspec fstype : String) : Device :=
  { name := devspec, path := devspec, fmt := env.get_format_ex fstype devspec,
    encrypted := false, is_network := true, is_optical := false, is_file := false,
    fstab_spec := devspec, fstab_comment := "" }

/-- `FileDevice(devspec, parents=…, fmt=get_format(fstype, device=devspec,
exists=True), exists=True)` (the parent link is irrelevant here). -/
def mkFileDevice (env : ParseEnv) (devspec fstype : String) : Device :=
  { name := devspec, path := devspec, fmt := env.get_format_ex fstype devspec,
    encrypted := false, is_network := false, is_optical := false, is_file := true,
    fstab_spec := devspec, fstab_comment := "" }

/-- `DirectoryDevice(devspec, parents=…, exists=True)` with its format then
set to `get_format("bind", device=device.path, exists=True)`. -/
def mkDirectoryDevice (env : ParseEnv) (devspec : String) : Device :=
  { name := devspec, path := devspec, fmt := env.get_format_ex "bind" devspec,
    encrypted := false, is_network := false, is_optical := false, is_file := false,
    fstab_spec := devspec, fstab_comment := "" }

/-- `NoDevice(fmt=get_format(fstype))`. -/
def mkNoDevice (env : ParseEnv) (devspec fstype : String) : Device :=
  { name := devspec, path := devspec, fmt := env.get_format_plain fstype,
    encrypted := false, is_network := false, is_optical := false, is_file := false,
    fstab_spec := devspec, fstab_comment := "" }

/-- The `FSTabTypeMismatchError` message
`"%s: detected as %s, fstab says %s" % (mountpoint, dtype, ftype)`. -/
def mismatchMsg (mountpoint : String) (dtype ftype : Option String) : String :=
  mountpoint ++ ": detected as " ++ optStr dtype ++ ", fstab says " ++ optStr ftype

/-- Result of one `_parse_one_line` call: the returned device (or raised
exception) together with the device setup/teardown effects performed. -/
structure LineResult where
  result : Except FstabError (Option Device)
  events : List Event
  deriving Repr, DecidableEq

/-- The tail of `_parse_one_line`: stamp the mountpoint (when the format
has that attribute) and the options onto the device format. -/
def stampFormat (device : Device) (mountpoint options : String) : Device :=
  let device :=
    if device.fmt.has_mountpoint_attr then
      { device with fmt := { device.fmt with mountpoint := some mountpoint } }
    else device
  { device with fmt := { device.fmt with options := options } }

/-- `FSSet._parse_one_line(devspec, mountpoint, fstype, options, …)`
(the trailing dump/passno parameters are unused by the source). -/
def parse_one_line (env : ParseEnv) (tree : List Device)
    (devspec mountpoint fstype options : String) : LineResult :=
  if (pySplitCh ',' options).contains "noauto" then
    ⟨.error .unrecognized, []⟩
  else
    -- classification chain; `none` from `step` models the early `return None`
    -- for virtual mountpoints, `some (none, _)` a still-unresolved entry;
    -- the bind branch rebinds `fstype`
    let step : Option (Option Device × String) :=
      match env.resolve_device tree devspec options with
      | some d => some (some d, fstype)
      | none =>
        if strStartsWith devspec "/dev/loop" then some (none, fstype)
        else if strContains devspec ":" && strStartsWith fstype "nfs" then
          some (some (mkNFSDevice env devspec fstype), fstype)
        else if strStartsWith devspec "/" && fstype = "swap" then
          some (some (mkFileDevice env devspec fstype), fstype)
        else if fstype = "bind" || strContains options "bind" then
          some (some (mkDirectoryDevice env devspec), "bind")
        else if virtualMountpoints.contains mountpoint then none
        else if devspec = "none" || env.nodev_class_matches fstype then
          some (some (mkNoDevice env devspec fstype), fstype)
        else some (none, fstype)
    match step with
    | none => ⟨.ok none, []⟩
    | some (none, _) => ⟨.error .unrecognized, []⟩
    | some (some device, fstype) =>
      let evs := [Event.setup device.name]
      let fmt := env.get_format_ex fstype device.path
      if fstype ≠ "auto" ∧ (device.fmt.type = none ∨ fmt.type = none) then
        ⟨.error .unrecognized, evs ++ [.teardown device.name]⟩
      else
        let ftype := fmt.mountTypeAttr
        let dtype := device.fmt.mountTypeAttr
        if fmt.has_test_mount ∧ fstype ≠ "auto" ∧ ftype ≠ dtype then
          if fmt.test_mount_ok then
            ⟨.ok (some (stampFormat { device with fmt := fmt } mountpoint options)), evs⟩
          else
            ⟨.error (.typeMismatch (mismatchMsg mountpoint dtype ftype)),
             evs ++ [.teardown device.name]⟩
        else
          ⟨.ok (some (stampFormat device mountpoint options)), evs⟩

/-- The mutable state `parse_fstab` threads through its line loop: the
device tree contents and the list of preserved raw lines. -/
structure ParseState where
  tree : List Device
  preserve_lines : List String
  deriving Repr, DecidableEq

/-- The body of `parse_fstab`'s `for line in lines` loop for one line.
An `UnrecognizedFSTabEntryError` appends the (comment-stripped) line to
`preserve_lines`; a `FSTabTypeMismatchError` escapes the loop; a
duplicate-device `ValueError` from `_add_device` also preserves the line. -/
def processLine (env : ParseEnv) (st : ParseState) (rawline : String) :
    Except String ParseState :=
  let line := stripComment rawline
  let fields := splitWS line
  if 4 ≤ fields.length ∧ fields.length ≤ 6 then
    match fields with
    | devspec :: mp :: fstype :: options :: _ =>
      match (parse_one_line env st.tree devspec mp fstype options).result with
      | .error .unrecognized =>
        .ok { st with preserve_lines := st.preserve_lines ++ [line] }
      | .error (.typeMismatch m) => .error m
      | .ok none => .ok st
      | .ok (some device) =>
        if st.tree.contains device then .ok st
        else
          match env.add_device st.tree device with
          | .ok tree2 => .ok { st with tree := tree2 }
          | .error _ =>
            .ok { st with preserve_lines := st.preserve_lines ++ [line] }
    | _ => .ok st
  else .ok st

/-- `FSSet.parse_fstab`'s loop over all file lines; a type-mismatch error
aborts the whole parse. -/
def parseLines (env : ParseEnv) (st : ParseState) :
    List String → Except String ParseState
  | [] => .ok st
  | l :: ls =>
    match processLine env st l with
    | .error e => .error e
    | .ok st2 => parseLines env st2 ls

/-- The comment-stripped text of a raw fstab line when that line has 4–6
whitespace-separated fields and `noauto` among its (comma-separated)
options, else `none`. -/
def noautoLine (raw : String) : Option String :=
  let line := stripComment raw
  let fields := splitWS line
  if 4 ≤ fields.length ∧ fields.length ≤ 6 then
    match fields with
    | _ :: _ :: _ :: options :: _ =>
      if (pySplitCh ',' options).contains "noauto" then some line else none
    | _ => none
  else none

/-! ## FSSet state and device-list properties -/

/-- The `FSSet` state read and written by the mount/unmount/swap and
writer methods: the device tree contents, the lazily-built virtual
filesystem devices (`self._dev`, `self._sysfs`, …, here taken as already
constructed), the `active` flag, the preserved lines and the
fstab-visible swap registrations. -/
structure FSSet where
  tree_devices : List Device
  dev : Device
  devshm : Device
  devpts : Device
  sysfs : Device
  proc : Device
  selinux : Device
  usb : Device
  run : Device
  efivars : Device
  active : Bool
  preserve_lines : List String
  fstab_swaps : List Device
  deriving Repr, DecidableEq

/-- `FSSet.devices`: the device tree's devices sorted by path. -/
def FSSet.devices (st : FSSet) : List Device :=
  List.insertionSort pathLe st.tree_devices

/-- `FSSet.mountpoints`: the mountpoint → device dict built from devices
whose format is mountable and has a truthy mountpoint. -/
def FSSet.mountpointsDict (st : FSSet) : List (String × Device) :=
  st.devices.foldl
    (fun acc d =>
      match d.fmt.mountable, d.fmt.mountpoint with
      | true, some mp => if mp = "" then acc else dictInsert mp d acc
      | _, _ => acc)
    []

/-- `self.mountpoints.values()`. -/
def FSSet.mountpointsValues (st : FSSet) : List Device :=
  st.mountpointsDict.map Prod.snd

/-- `FSSet.swap_devices`: devices whose format type is `"swap"`. -/
def FSSet.swap_devices (st : FSSet) : List Device :=
  st.devices.filter (fun d => d.fmt.type = some "swap")

/-! ## FSSet.turn_on_swap / mount_filesystems / umount_filesystems -/

/-- External collaborators of the mount/unmount/swap entry points. -/
structure MountEnv where
  /-- `flags.installer_mode`. -/
  installer_mode : Bool
  /-- `isinstance(_platform, EFI)`. -/
  is_efi : Bool
  /-- does `device.setup()` succeed? -/
  setup_ok : Device → Bool
  /-- does `device.format.setup(options=…, chroot=…)` succeed? -/
  mount_ok : Device → Bool
  /-- does `device.format.setup()` for swap succeed? -/
  swap_on_ok : Device → Bool
  /-- `error_handler.cb(e) == ERROR_RAISE`. -/
  error_raise : Bool
  /-- `get_containing_device(target_dir, devicetree)` at mount time. -/
  containing : String → Option Device

/-- The sorted device list built by `mount_filesystems`. -/
def mountSortedList (env : MountEnv) (st : FSSet) : List Device :=
  List.insertionSort mpLe
    (st.mountpointsValues ++ st.swap_devices ++
      [st.dev, st.devshm, st.devpts, st.sysfs, st.proc, st.selinux, st.usb, st.run] ++
      (if env.is_efi then [st.efivars] else []))

/-- The sorted device list built by `umount_filesystems` (same contents,
`usb`/`selinux` appended in the opposite order). -/
def umountSortedList (env : MountEnv) (st : FSSet) : List Device :=
  List.insertionSort mpLe
    (st.mountpointsValues ++ st.swap_devices ++
      [st.dev, st.devshm, st.devpts, st.sysfs, st.proc, st.usb, st.selinux, st.run] ++
      (if env.is_efi then [st.efivars] else []))

/-- Outcome of one iteration of `mount_filesystems`'s device loop: the
events it performed, continuing to the next device (`skip`) or letting an
exception propagate (`abort`). -/
inductive StepRes where
  | skip (evs : List Event)
  | abort (evs : List Event)
  deriving Repr, DecidableEq

/-- The events of a loop-iteration outcome. -/
def StepRes.events : StepRes → List Event
  | .skip evs => evs
  | .abort evs => evs

/-- The body of `mount_filesystems`'s `for device in devices` loop for one
device: skip non-mountable / mountpoint-less devices, the root when asked
to, and `noauto` entries; resolve bind-mount parents (dropping the device
on failure); then `device.setup()` and `device.format.setup(...)`, each
failure routed through the error-handler callback. -/
def mountStep (env : MountEnv) (st : FSSet) (root_path : String) (skip_root : Bool)
    (d : Device) : StepRes :=
  if ¬ d.fmt.mountable ∨ mpKey d = "" then .skip []
  else if skip_root ∧ mpKey d = "/" then .skip []
  else if (pySplitCh ',' d.fmt.options).contains "noauto" then .skip []
  else if d.fmt.type = some "bind" ∧ d ≠ st.dev ∧ d ≠ st.run ∧
      env.containing (root_path ++ "/" ++ d.path) = none then
    .skip [.removed d.name]
  else if ¬ env.setup_ok d then
    if env.error_raise then .abort [] else .skip []
  else if ¬ env.mount_ok d then
    if env.error_raise then .abort [.setup d.name] else .skip [.setup d.name]
  else .skip [.setup d.name, .mounted d.name (mpKey d)]

/-- The whole loop; the Bool is `true` when it ran to completion, `false`
when an exception propagated via the `ERROR_RAISE` callback decision. -/
def mountLoop (env : MountEnv) (st : FSSet) (root_path : String) (skip_root : Bool) :
    List Device → List Event × Bool
  | [] => ([], true)
  | d :: rest =>
    match mountStep env st root_path skip_root d with
    | .abort evs => (evs, false)
    | .skip evs =>
      let r := mountLoop env st root_path skip_root rest
      (evs ++ r.1, r.2)

/-- All conditions under which the loop body mounts a device: it passes
every filter, its bind parent (if any) is found, and both setup calls
succeed. -/
def mountEmits (env : MountEnv) (st : FSSet) (root_path : String) (skip_root : Bool)
    (d : Device) : Prop :=
  d.fmt.mountable = true ∧ mpKey d ≠ "" ∧ ¬(skip_root ∧ mpKey d = "/") ∧
  ((pySplitCh ',' d.fmt.options).contains "noauto") = false ∧
  ¬(d.fmt.type = some "bind" ∧ d ≠ st.dev ∧ d ≠ st.run ∧
      env.containing (root_path ++ "/" ++ d.path) = none) ∧
  env.setup_ok d = true ∧ env.mount_ok d = true

instance (env : MountEnv) (st : FSSet) (root_path : String) (skip_root : Bool)
    (d : Device) : Decidable (mountEmits env st root_path skip_root d) := by
  unfold mountEmits
  infer_instance

/-- `FSSet.mount_filesystems`.  The `read_only` option string only alters
the mount options, not the event structure, and is omitted.  `.error`
models an exception escaping the loop (the `active` flag is then never
set). -/
def mount_filesystems (env : MountEnv) (st : FSSet) (root_path : String)
    (skip_root : Bool) : List Event × Except Unit FSSet :=
  if ¬ env.installer_mode then ([], .ok st)
  else
    let r := mountLoop env st root_path skip_root (mountSortedList env st)
    if r.2 then (r.1, .ok { st with active := true })
    else (r.1, .error ())

/-- The per-device filter of `umount_filesystems`'s loop. -/
def umountPass (swapoff : Bool) (d : Device) : Bool :=
  d.fmt.mountable && !(d.fmt.type = some "swap" && !swapoff)

/-- `FSSet.umount_filesystems`: tear each device down in reverse sorted
order; note the source has no `installer_mode` guard here. -/
def umount_filesystems (env : MountEnv) (st : FSSet) (swapoff : Bool) :
    List Event × FSSet :=
  (((umountSortedList env st).reverse.filter (umountPass swapoff)).map
      (fun d => Event.teardown d.name),
   { st with active := false })

/-- The mountpoints mounted, in order, by a mount event list. -/
def mountedOrder (evs : List Event) : List String :=
  evs.filterMap fun e =>
    match e with
    | .mounted _ mp => some mp
    | _ => none

/-- The mountpoint keys of the devices torn down, in order, by
`umount_filesystems`. -/
def umountOrder (env : MountEnv) (st : FSSet) (swapoff : Bool) : List String :=
  ((umountSortedList env st).reverse.filter (umountPass swapoff)).map mpKey

/-- One `try: device.setup(); device.format.setup()` attempt of
`turn_on_swap`'s retry loop: the events performed and whether the attempt
succeeded. -/
def swapTry (env : MountEnv) (d : Device) : List Event × Bool :=
  if env.setup_ok d then
    if env.swap_on_ok d then ([.setup d.name, .swapOn d.name], true)
    else ([.setup d.name], false)
  else ([], false)

/-- `turn_on_swap`'s `while True` retry loop for one device, fuelled
(with deterministic externals a retried failure repeats forever; `none`
models that divergence).  The Bool is `true` to proceed to the next
device, `false` to re-raise. -/
def swapRetryLoop (env : MountEnv) (d : Device) : Nat → Option (List Event × Bool)
  | 0 => none
  | fuel + 1 =>
    let (evs, okq) := swapTry env d
    if okq then some (evs, true)
    else if env.error_raise then some (evs, false)
    else (swapRetryLoop env d fuel).map fun p => (evs ++ p.1, p.2)

/-- The `for device in self.swap_devices` loop of `turn_on_swap`,
including the lazy `FileDevice` parent fixup that can remove the device
from the tree. -/
def turnOnSwapLoop (env : MountEnv) (root_path : String) :
    FSSet → Nat → List Device → Option (List Event × Except Unit FSSet)
  | st, _, [] => some ([], .ok st)
  | st, fuel, d :: rest =>
    if d.is_file ∧ env.containing (root_path ++ "/" ++ d.path) = none then
      (turnOnSwapLoop env root_path
          { st with tree_devices := st.tree_devices.erase d } fuel rest).map
        fun p => (Event.removed d.name :: p.1, p.2)
    else
      match swapRetryLoop env d fuel with
      | none => none
      | some (evs, false) => some (evs, .error ())
      | some (evs, true) =>
        (turnOnSwapLoop env root_path st fuel rest).map
          fun p => (evs ++ p.1, p.2)

/-- `FSSet.turn_on_swap`. -/
def turn_on_swap (env : MountEnv) (st : FSSet) (root_path : String) (fuel : Nat) :
    Option (List Event × Except Unit FSSet) :=
  if env.installer_mode then turnOnSwapLoop env root_path st fuel st.swap_devices
  else some ([], .ok st)

/-! ## FSSet.fstab (the fstab writer) -/

/-- Python exceptions surfacing in the writer embedding. -/
inductive PyErr where
  | indexError
  | valueError
  deriving Repr, DecidableEq

/-- External collaborators of the writer. -/
structure WriteEnv where
  /-- `flags.installer_mode`. -/
  installer_mode : Bool
  /-- `time.asctime()`. -/
  time_str : String
  /-- `a.depends_on(b)`. -/
  depends_on : Device → Device → Bool

/-- A single-quote character (codepoint 39). -/
def sq : String := String.mk [Char.ofNat 39]

/-- The generated fstab header comment block, timestamp substituted. -/
def fstabHeader (t : String) : String :=
  "\n#\n# /etc/fstab\n# Created by anaconda on " ++ t ++
  "\n#\n# Accessible filesystems, by reference, are maintained under " ++
  sq ++ "/dev/disk" ++ sq ++
  "\n# See man pages fstab(5), findfs(8), mount(8) and/or blkid(8) for more info\n#\n"

/-- The device list the writer iterates: mountpoint devices sorted by
mountpoint, then swap devices (restricted to the explicitly registered
ones in installer mode). -/
def fstabDeviceList (env : WriteEnv) (st : FSSet) : List Device :=
  (List.insertionSort mpLe st.mountpointsValues) ++
  (if env.installer_mode then
      st.swap_devices.filter (fun d => st.fstab_swaps.contains d)
    else st.swap_devices)

/-- One generated fstab line, before column formatting. -/
structure Row where
  comment : String
  devspec : String
  mountpoint : String
  fstype : Option String
  options : String
  dump : Nat
  passno : Nat
  deriving Repr, DecidableEq

/-- The body of the writer's `for device in devices` loop: the row
emitted for a device, or `none` when the loop `continue`s. -/
def fstabRow (env : WriteEnv) (netdevs : List Device) (root_on_netdev : Bool)
    (d : Device) : Option Row :=
  if ¬ d.fmt.mountable ∧ d.fmt.type ≠ some "swap" then none
  else if d.is_optical then none
  else
    let fstype := d.fmt.mountTypeAttr
    let mpOpt : Option String :=
      if fstype = some "swap" then some "swap"
      else
        match d.fmt.mountpoint with
        | none => none
        | some "" => none
        | some mp => some mp
    match mpOpt with
    | none => none
    | some mountpoint =>
      let options := d.fmt.options
      let options := if options = "" then "defaults" else options
      let options :=
        if netdevs.any (fun nd => env.depends_on d nd) ∧ root_on_netdev ∧
            mountpoint = "/var"
          then options ++ ",x-initrd.mount" else options
      let options :=
        if d.encrypted then options ++ ",x-systemd.device-timeout=0" else options
      let passno : Nat :=
        if d.fmt.check ∧ mountpoint = "/" then 1
        else if d.fmt.check then 2
        else 0
      some { comment := d.fstab_comment, devspec := d.fstab_spec,
             mountpoint := mountpoint, fstype := fstype, options := options,
             dump := d.fmt.dump, passno := passno }

/-- Column formatting `"%-23s %-23s %-7s %-15s %d %d\n"`, preceded by
`device.fstab_comment`. -/
def renderRow (r : Row) : String :=
  r.comment ++ padTo 23 r.devspec ++ " " ++ padTo 23 r.mountpoint ++ " " ++
  padTo 7 (optStr r.fstype) ++ " " ++ padTo 15 r.options ++ " " ++
  toString r.dump ++ " " ++ toString r.passno ++ "\n"

/-- The rows generated by `FSSet.fstab` (empty when the device list is
empty — though the writer itself then raises instead, see `fstabE`). -/
def fstabRows (env : WriteEnv) (st : FSSet) : List Row :=
  match fstabDeviceList env st with
  | [] => []
  | rootdev :: _ =>
    let netdevs := st.devices.filter (·.is_network)
    let rond := netdevs.any (env.depends_on rootdev)
    (fstabDeviceList env st).filterMap (fstabRow env netdevs rond)

/-- `FSSet.fstab`: `rootdev = devices[0]` raises `IndexError` on an empty
device list; otherwise the header, the generated rows, then the
preserved lines verbatim. -/
def fstabE (env : WriteEnv) (st : FSSet) : Except PyErr String :=
  match fstabDeviceList env st with
  | [] => .error .indexError
  | _ :: _ =>
    .ok (fstabHeader env.time_str ++
         String.join ((fstabRows env st).map renderRow) ++
         String.join st.preserve_lines)

/-! ## CryptTab -/

/-- One crypttab mapping value: backing device, keyfile, options. -/
structure CryptMapping where
  device : Device
  keyfile : String
  options : String
  deriving Repr, DecidableEq

/-- The loop body of `CryptTab.parse` for one crypttab line; `resolve` is
`devicetree.resolve_device(devspec, blkid_tab=self.blkid_tab)`. -/
def cryptTabParseLine (resolve : String → Option Device)
    (mappings : List (String × CryptMapping)) (rawline : String) :
    List (String × CryptMapping) :=
  let line := stripComment rawline
  let fields := splitWS line
  if 2 ≤ fields.length ∧ fields.length ≤ 4 then
    let fields :=
      if fields.length = 2 then fields ++ ["none", ""]
      else if fields.length = 3 then fields ++ [""]
      else fields
    match fields with
    | name :: devspec :: keyfile :: options :: _ =>
      match resolve devspec with
      | some d =>
        dictInsert name { device := d, keyfile := keyfile, options := options } mappings
      | none => mappings
    | _ => mappings
  else mappings

/-- `CryptTab.parse` over the file's lines. -/
def cryptTabParse (resolve : String → Option Device) (lines : List String) :
    List (String × CryptMapping) :=
  lines.foldl (cryptTabParseLine resolve) []

/-! ## BlkidTab -/

/-- Python 2-tuple unpacking `(key, value) = l`: raises `ValueError`
unless the list has exactly two elements. -/
def pyUnpack2 (l : List String) : Except PyErr (String × String) :=
  match l with
  | [k, v] => .ok (k, v)
  | _ => .error .valueError

/-- Python `s[1:-1]`. -/
def pySlice1m1 (s : String) : String :=
  let t := s.data.drop 1
  String.mk (t.take (t.length - 1))

/-- Python `s[8:-10]`, i.e. `line[len("<device "):-len("</device>\n")]`. -/
def pySlice8m10 (s : String) : String :=
  let t := s.data.drop 8
  String.mk (t.take (t.length - 10))

/-- The `for pair in data.split()` loop of `BlkidTab.parse`: each pair is
unpacked on `"="`; a `ValueError` (not exactly two parts) is caught and
skips only that pair; values are unquoted by stripping exactly one
leading and one trailing character. -/
def blkidPairs (attrs : List (String × String)) : List String → List (String × String)
  | [] => attrs
  | pair :: rest =>
    match pyUnpack2 (pySplitCh '=' pair) with
    | .ok (k, v) => blkidPairs (dictInsert k (pySlice1m1 v) attrs) rest
    | .error _ => blkidPairs attrs rest

/-- The loop body of `BlkidTab.parse` for one line of `blkid.tab`. -/
def blkidParseLine (tab : List (String × List (String × String))) (line : String) :
    List (String × List (String × String)) :=
  if strStartsWith line "<device " then
    let line := pySlice8m10 line
    let parts := pyPartition '>' line
    let device := parts.2.2
    if device = "" then tab
    else dictInsert device (blkidPairs [] (splitWS parts.1)) tab
  else tab

/-- `BlkidTab.parse` over the file's lines. -/
def blkidParse (lines : List String) : List (String × List (String × String)) :=
  lines.foldl blkidParseLine []

/-! ## FSSet.create_swap_file (filename allocation) -/

/-- The candidate swap filenames `"/SWAP"`, `"/SWAP-1"`, `"/SWAP-2"`, …
in probe order. -/
def swapName : Nat → String
  | 0 => "/SWAP"
  | n + 1 => "/SWAP-" ++ toString (n + 1)

/-- The `while` condition of `create_swap_file`: the name is taken if the
file `"%s/%s" % (basedir, filename)` exists or the device tree already
has a device of that name. -/
def swapClaimed (fs_exists : String → Bool) (dev_by_name : String → Option Device)
    (basedir : String) (name : String) : Bool :=
  fs_exists (basedir ++ "/" ++ name) || (dev_by_name name).isSome

/-- The filename allocated by `create_swap_file`: the first candidate that
is not claimed (the `while` loop terminates exactly when one exists). -/
def createSwapFileName (fs_exists : String → Bool)
    (dev_by_name : String → Option Device) (basedir : String)
    (h : ∃ n, swapClaimed fs_exists dev_by_name basedir (swapName n) = false) :
    String :=
  swapName (Nat.find h)

/-! ## get_containing_device -/

/-- The OS and device-tree interface consumed by `get_containing_device`.
`stat_dev` may fail (the code only calls it behind an existence check);
`readlink_basename` is `os.path.basename(os.readlink(link))`, whose
failure the code catches. -/
structure OsEnv where
  path_exists : String → Bool
  stat_dev : String → Except Unit (Nat × Nat)
  readlink_basename : String → Except Unit String
  dm_name_from_node : String → String
  get_device_by_name : String → Option Device

/-- `get_containing_device(path, devicetree)`: resolve the device backing
a path via its device-number pair; `.error` marks a Python exception
propagating (only possible from the unguarded `os.stat`). -/
def get_containing_device (env : OsEnv) (path : String) :
    Except Unit (Option Device) :=
  if ¬ env.path_exists path then .ok none
  else
    match env.stat_dev path with
    | .error e => .error e
    | .ok mm =>
      let link := "/sys/dev/block/" ++ toString mm.1 ++ ":" ++ toString mm.2
      if ¬ env.path_exists link then .ok none
      else
        match env.readlink_basename link with
        | .error _ => .ok none
        | .ok dname =>
          let dname :=
            if strStartsWith dname "dm-" then env.dm_name_from_node dname else dname
          .ok (env.get_device_by_name dname)

/-! ## Concrete instances used by witnesses and counterexamples -/

/-- A format with every attribute absent or trivial. -/
def fmt0 : Fmt :=
  { type := none, mount_type := none, mountable := false, mountpoint := none,
    options := "", check := false, dump := 0, has_test_mount := false,
    test_mount_ok := false, has_mountpoint_attr := false }

/-- A trivial parse environment: nothing resolves, adding always succeeds. -/
def env0 : ParseEnv :=
  { resolve_device := fun _ _ _ => none,
    get_containing := fun _ => none,
    get_format_ex := fun _ _ => fmt0,
    get_format_plain := fun _ => fmt0,
    nodev_class_matches := fun _ => false,
    add_device := fun tree d => .ok (tree ++ [d]) }

/-- An ordinary mountable filesystem format. -/
def mkFmtFS (t mp : String) (check : Bool) : Fmt :=
  { type := some t, mount_type := none, mountable := true, mountpoint := some mp,
    options := "defaults", check := check, dump := 0, has_test_mount := true,
    test_mount_ok := true, has_mountpoint_attr := true }

/-- An ordinary block device carrying the given format. -/
def mkDev (name path : String) (f : Fmt) : Device :=
  { name := name, path := path, fmt := f, encrypted := false, is_network := false,
    is_optical := false, is_file := false, fstab_spec := path, fstab_comment := "" }

/-- A virtual-filesystem device like the ones the FSSet properties build. -/
def vdev (name t mp : String) : Device :=
  mkDev name name
    { type := some t, mount_type := none, mountable := true, mountpoint := some mp,
      options := "", check := false, dump := 0, has_test_mount := false,
      test_mount_ok := false, has_mountpoint_attr := true }

def devRoot : Device := mkDev "sda1" "/dev/sda1" (mkFmtFS "ext4" "/" true)

def devBoot : Device := mkDev "sda2" "/dev/sda2" (mkFmtFS "ext4" "/boot" true)

def devVar : Device := mkDev "sda3" "/dev/sda3" (mkFmtFS "ext4" "/var" true)

def devVarLog : Device := mkDev "sda4" "/dev/sda4" (mkFmtFS "ext4" "/var/log" true)

/-- An FSSet with no tree devices and the standard virtual devices. -/
def fsBase : FSSet :=
  { tree_devices := [],
    dev := vdev "dev" "bind" "/dev",
    devshm := vdev "devshm" "tmpfs" "/dev/shm",
    devpts := vdev "devpts" "devpts" "/dev/pts",
    sysfs := vdev "sysfs" "sysfs" "/sys",
    proc := vdev "proc" "proc" "/proc",
    selinux := vdev "selinuxfs" "selinuxfs" "/sys/fs/selinux",
    usb := vdev "usbfs" "usbfs" "/proc/bus/usb",
    run := vdev "run" "bind" "/run",
    efivars := vdev "efivarfs" "efivarfs" "/sys/firmware/efi/efivars",
    active := false, preserve_lines := [], fstab_swaps := [] }

/-- Four ordinary filesystems on `/`, `/boot`, `/var`, `/var/log`. -/
def fsC3 : FSSet := { fsBase with tree_devices := [devRoot, devBoot, devVar, devVarLog] }

/-- A mount environment in installer mode where every operation succeeds. -/
def mountEnvC : MountEnv :=
  { installer_mode := true, is_efi := false, setup_ok := fun _ => true,
    mount_ok := fun _ => true, swap_on_ok := fun _ => true,
    error_raise := true, containing := fun _ => some devRoot }

/-- The same mount environment outside installer mode. -/
def mountEnvOff : MountEnv := { mountEnvC with installer_mode := false }

/-- An active FSSet, as after `mount_filesystems`. -/
def fsC5 : FSSet := { fsC3 with active := true }

/-- The on-disk (probed) format of the type-mismatch device: `xfs`. -/
def fmtXfs : Fmt :=
  { type := some "xfs", mount_type := none, mountable := true, mountpoint := none,
    options := "", check := false, dump := 0, has_test_mount := false,
    test_mount_ok := false, has_mountpoint_attr := true }

/-- A device whose scanned format is `xfs`. -/
def devC2 : Device := mkDev "sdb1" "/dev/sdb1" fmtXfs

/-- The format constructed for the declared fstype `ext4`, with a failing
trial mount. -/
def fmtExt4Probe : Fmt :=
  { type := some "ext4", mount_type := none, mountable := true, mountpoint := none,
    options := "", check := true, dump := 0, has_test_mount := true,
    test_mount_ok := false, has_mountpoint_attr := true }

/-- Parse environment for the type-mismatch scenario. -/
def envC2 : ParseEnv :=
  { env0 with
    resolve_device := fun _ spec _ => if spec = "/dev/sdb1" then some devC2 else none
    get_format_ex := fun t _ => if t = "ext4" then fmtExt4Probe else fmt0 }

/-- A root filesystem whose format does not request fsck. -/
def devRootNoCheck : Device := mkDev "sda1" "/dev/sda1" (mkFmtFS "xfs" "/" false)

def fsC4 : FSSet := { fsBase with tree_devices := [devRootNoCheck] }

/-- A writer environment outside installer mode with no device
dependencies. -/
def wenvC : WriteEnv :=
  { installer_mode := false, time_str := "now", depends_on := fun _ _ => false }

/-- The single-noauto-line fstab input of the preservation witness. -/
def linesC1w : List String := ["/dev/x /mnt ext4 noauto 0 0\n"]

/-- Writer state holding the preserved noauto line plus a root device. -/
def fsC1w : FSSet :=
  { fsBase with
    tree_devices := [devRoot]
    preserve_lines := ["/dev/x /mnt ext4 noauto 0 0\n"] }

/-- The two-line fstab input of the preservation counterexample: a
three-field line and a noauto line carrying a trailing comment. -/
def linesC1c : List String := ["a b c\n", "/dev/x /mnt ext4 noauto 0 0 # hi\n"]

/-- A backing device for the crypttab scenario. -/
def devLuks : Device := mkDev "sdc1" "/dev/sdc1" fmt0

/-- A resolver that knows only `UUID=abcd`. -/
def resolveC6 : String → Option Device :=
  fun spec => if spec = "UUID=abcd" then some devLuks else none

/-- Existing files `/SWAP` and `/SWAP-1` under `/mnt/sysimage`. -/
def fsExistsC8 : String → Bool :=
  fun p => p = "/mnt/sysimage//SWAP" || p = "/mnt/sysimage//SWAP-1"

/-- A device tree with no devices named like swap files. -/
def devByNameC8 : String → Option Device := fun _ => none

/-- A concrete OS environment: `/home/x` exists on device 8:1, whose
sysfs link exists but cannot be read. -/
def osEnvC : OsEnv :=
  { path_exists := fun p => p = "/home/x" || p = "/sys/dev/block/8:1",
    stat_dev := fun _ => .ok (8, 1),
    readlink_basename := fun _ => .error (),
    dm_name_from_node := fun s => s,
    get_device_by_name := fun _ => none }

end Blivet

namespace Blivet

/-! # Theorems -/

/-! ## Order lemmas for the sort relations -/

theorem lexLe_total : ∀ as bs, lexLe as bs = true ∨ lexLe bs as = true
  | [], _ => Or.inl rfl
  | _ :: _, [] => Or.inr rfl
  | a :: as, b :: bs => by
    simp only [lexLe, Bool.or_eq_true, Bool.and_eq_true, decide_eq_true_eq]
    rcases Nat.lt_trichotomy a.toNat b.toNat with h | h | h
    · exact Or.inl (Or.inl h)
    · rcases lexLe_total as bs with ih | ih
      · exact Or.inl (Or.inr ⟨h, ih⟩)
      · exact Or.inr (Or.inr ⟨h.symm, ih⟩)
    · exact Or.inr (Or.inl h)

theorem lexLe_trans :
    ∀ as bs cs, lexLe as bs = true → lexLe bs cs = true → lexLe as cs = true
  | [], _, _, _, _ => rfl
  | _ :: _, [], _, h1, _ => by simp [lexLe] at h1
  | _ :: _, _ :: _, [], _, h2 => by simp [lexLe] at h2
  | a :: as, b :: bs, c :: cs, h1, h2 => by
    simp only [lexLe, Bool.or_eq_true, Bool.and_eq_true, decide_eq_true_eq] at h1 h2 ⊢
    rcases h1 with h1 | ⟨h1e, h1r⟩ <;> rcases h2 with h2 | ⟨h2e, h2r⟩
    · exact Or.inl (by omega)
    · exact Or.inl (by omega)
    · exact Or.inl (by omega)
    · exact Or.inr ⟨by omega, lexLe_trans as bs cs h1r h2r⟩

theorem lexLe_antisymm :
    ∀ as bs, lexLe as bs = true → lexLe bs as = true → as = bs
  | [], [], _, _ => rfl
  | [], _ :: _, _, h2 => by simp [lexLe] at h2
  | _ :: _, [], h1, _ => by simp [lexLe] at h1
  | a :: as, b :: bs, h1, h2 => by
    simp only [lexLe, Bool.or_eq_true, Bool.and_eq_true, decide_eq_true_eq] at h1 h2
    rcases h1 with h1 | ⟨h1e, h1r⟩ <;> rcases h2 with h2 | ⟨h2e, h2r⟩
    · exact absurd (h1.trans h2) (Nat.lt_irrefl _)
    · exact absurd h1 (by omega)
    · exact absurd h2 (by omega)
    · have hab : a = b :=
        Char.eq_of_val_eq (UInt32.eq_of_toBitVec_eq (BitVec.eq_of_toNat_eq h1e))
      rw [hab, lexLe_antisymm as bs h1r h2r]

instance : IsTotal String strLeP := ⟨fun a b => lexLe_total a.data b.data⟩


instance : IsTrans String strLeP := ⟨fun a b c => lexLe_trans a.data b.data c.data⟩

instance : IsAntisymm String strLeP :=
  ⟨fun a b h1 h2 => by
    cases a; cases b
    exact congrArg String.mk (lexLe_antisymm _ _ h1 h2)⟩

instance : IsTotal Device mpLe := ⟨fun _ _ => lexLe_total _ _⟩

instance : IsTrans Device mpLe := ⟨fun _ _ _ => lexLe_trans _ _ _⟩

/-! ## C10: empty plan makes the fstab writer fail -/

/-- C10: when the mountpoint map and the swap-device list are both empty,
`FSSet.fstab`'s `rootdev = devices[0]` access is out of bounds and the
writer raises `IndexError`: serialization implicitly requires at least
one mountable or swap device. -/
theorem c10_fstab_empty_index_error (env : WriteEnv) (st : FSSet)
    (hmp : st.mountpointsValues = []) (hsw : st.swap_devices = []) :
    fstabE env st = .error .indexError := by
  have hlist : fstabDeviceList env st = [] := by
    unfold fstabDeviceList
    rw [hmp, hsw]
    simp [List.insertionSort]
  unfold fstabE
  rw [hlist]

/-- Witness for C10 at a concrete empty FSSet. -/
theorem c10_witness :
    FSSet.mountpointsValues fsBase = [] ∧ FSSet.swap_devices fsBase = [] ∧
    fstabE wenvC fsBase = .error .indexError :=
  ⟨by decide, by decide,
   c10_fstab_empty_index_error wenvC fsBase (by decide) (by decide)⟩

/-! ## C4: pass numbers in the generated fstab -/

/-- C4 counterexample: a root filesystem whose format does not request
fsck is emitted with pass number 0 — the claim's unconditional "1 for the
root filesystem" fails. -/
theorem c4_counterexample :
    ∃ r ∈ fstabRows wenvC fsC4, r.mountpoint = "/" ∧ r.passno ≠ 1 := by decide

/-- C4 (amended): each generated fstab row's pass number is 1 when the
device's format requests fsck and the row's mountpoint is "/", 2 when the
format requests fsck with another mountpoint, and 0 when the format does
not request fsck (so a root filesystem not requesting fsck gets 0). -/
theorem c4_passno (env : WriteEnv) (netdevs : List Device) (rond : Bool)
    (d : Device) (r : Row) (h : fstabRow env netdevs rond d = some r) :
    r.passno = if d.fmt.check ∧ r.mountpoint = "/" then 1
      else if d.fmt.check then 2 else 0 := by
  simp only [fstabRow] at h
  repeat' split at h
  all_goals try exact Option.noConfusion h
  all_goals injection h with h2
  all_goals subst h2
  all_goals simp_all

/-- Witness for C4's amended pass-number rule at a concrete fsck-checking
root device. -/
theorem c4_witness :
    Row.passno ⟨"", "/dev/sda1", "/", some "ext4", "defaults", 0, 1⟩ =
      if devRoot.fmt.check ∧
          Row.mountpoint ⟨"", "/dev/sda1", "/", some "ext4", "defaults", 0, 1⟩ = "/"
        then 1 else if devRoot.fmt.check then 2 else 0 :=
  c4_passno wenvC [] false devRoot _ (by decide)

/-! ## C8: swap filename allocation -/

/-- C8: `create_swap_file` allocates the first filename in the sequence
"/SWAP", "/SWAP-1", "/SWAP-2", … that neither exists on the filesystem
under the target mountpoint nor is claimed by a device of that name: the
result is unclaimed and every earlier candidate is claimed. -/
theorem c8_swap_filename (fs_exists : String → Bool)
    (dev_by_name : String → Option Device) (basedir : String)
    (h : ∃ n, swapClaimed fs_exists dev_by_name basedir (swapName n) = false) :
    createSwapFileName fs_exists dev_by_name basedir h = swapName (Nat.find h) ∧
    swapClaimed fs_exists dev_by_name basedir (swapName (Nat.find h)) = false ∧
    ∀ j < Nat.find h, swapClaimed fs_exists dev_by_name basedir (swapName j) = true :=
  ⟨rfl, Nat.find_spec h, fun j hj => by
    have hm := Nat.find_min h hj
    simpa using hm⟩

theorem c8_exists_free :
    ∃ n, swapClaimed fsExistsC8 devByNameC8 "/mnt/sysimage" (swapName n) = false :=
  ⟨2, by decide⟩

/-- Witness for C8: with `/SWAP` and `/SWAP-1` existing, the allocated
name is `/SWAP-2`. -/
theorem c8_witness :
    createSwapFileName fsExistsC8 devByNameC8 "/mnt/sysimage" c8_exists_free
        = "/SWAP-2" ∧
    swapClaimed fsExistsC8 devByNameC8 "/mnt/sysimage" "/SWAP" = true ∧
    swapClaimed fsExistsC8 devByNameC8 "/mnt/sysimage" "/SWAP-1" = true ∧
    swapClaimed fsExistsC8 devByNameC8 "/mnt/sysimage" "/SWAP-2" = false := by
  have hfind : Nat.find c8_exists_free = 2 := by
    rw [Nat.find_eq_iff]
    exact ⟨by decide, by decide⟩
  refine ⟨?_, by decide, by decide, by decide⟩
  have h := (c8_swap_filename fsExistsC8 devByNameC8 "/mnt/sysimage" c8_exists_free).1
  rw [h, hfind]
  decide

/-! ## C9: get_containing_device failure behavior -/

/-- C9: the path-owner lookup returns no result when the path does not
exist, when the device-number sysfs link does not exist, or when reading
that link fails; and (given that `os.stat` succeeds on existing paths,
the only unguarded OS call) it never raises for any input. -/
theorem c9_get_containing_device (env : OsEnv) (path : String)
    (hstat : ∀ p, env.path_exists p = true → ∃ v, env.stat_dev p = .ok v) :
    (env.path_exists path = false → get_containing_device env path = .ok none) ∧
    (∀ mm, env.stat_dev path = .ok mm →
      env.path_exists ("/sys/dev/block/" ++ toString mm.1 ++ ":" ++ toString mm.2)
          = false →
      get_containing_device env path = .ok none) ∧
    (∀ mm e, env.stat_dev path = .ok mm →
      env.readlink_basename ("/sys/dev/block/" ++ toString mm.1 ++ ":" ++ toString mm.2)
          = .error e →
      get_containing_device env path = .ok none) ∧
    (∃ r, get_containing_device env path = .ok r) := by
  by_cases hex : env.path_exists path = true
  · obtain ⟨mm0, hmm0⟩ := hstat path hex
    refine ⟨(fun hc => by simp [hc] at hex), ?_, ?_, ?_⟩
    · intro mm hmm hlink
      simp [get_containing_device, hex, hmm, hlink]
    · intro mm e hmm hrl
      simp [get_containing_device, hex, hmm, hrl]
    · by_cases hl : env.path_exists
          ("/sys/dev/block/" ++ toString mm0.1 ++ ":" ++ toString mm0.2) = true
      · cases hrl : env.readlink_basename
            ("/sys/dev/block/" ++ toString mm0.1 ++ ":" ++ toString mm0.2) with
        | error e =>
          exact ⟨none, by simp [get_containing_device, hex, hmm0, hl, hrl]⟩
        | ok dname =>
          exact ⟨env.get_device_by_name
              (if strStartsWith dname "dm-" then env.dm_name_from_node dname else dname),
            by simp [get_containing_device, hex, hmm0, hl, hrl]⟩
      · exact ⟨none, by simp [get_containing_device, hex, hmm0, hl]⟩
  · have hne : get_containing_device env path = .ok none := by
      unfold get_containing_device
      rw [if_pos (by simpa using hex)]
    exact ⟨fun _ => hne, fun _ _ _ => hne, fun _ _ _ _ => hne, ⟨none, hne⟩⟩

/-- Witness for C9: a missing path and a failing readlink both yield no
result (and no exception). -/
theorem c9_witness :
    get_containing_device osEnvC "/nope" = .ok none ∧
    get_containing_device osEnvC "/home/x" = .ok none :=
  ⟨(c9_get_containing_device osEnvC "/nope" (fun _ _ => ⟨(8, 1), rfl⟩)).1 (by decide),
   (c9_get_containing_device osEnvC "/home/x" (fun _ _ => ⟨(8, 1), rfl⟩)).2.2.1
     (8, 1) () rfl (by decide)⟩

/-! ## C5: the installer-mode gate -/

/-- C5 counterexample: with the installer-mode flag inactive,
`umount_filesystems` still tears every mounted filesystem down and clears
the `active` flag — the unmount operation is not a no-op. -/
theorem c5_counterexample :
    mountEnvOff.installer_mode = false ∧
    (umount_filesystems mountEnvOff fsC5 true).1 ≠ [] ∧
    (umount_filesystems mountEnvOff fsC5 true).2 ≠ fsC5 := by decide

/-- C5 (amended): with the installer-mode flag inactive,
`mount_filesystems` and `turn_on_swap` return immediately, with no device
events and the state unchanged; `umount_filesystems` has no such gate. -/
theorem c5_flag_gates (env : MountEnv) (st : FSSet) (root_path : String)
    (skip_root : Bool) (fuel : Nat) (h : env.installer_mode = false) :
    mount_filesystems env st root_path skip_root = ([], .ok st) ∧
    turn_on_swap env st root_path fuel = some ([], .ok st) := by
  constructor
  · unfold mount_filesystems
    rw [if_pos (by simp [h])]
  · unfold turn_on_swap
    rw [if_neg (by simp [h])]

/-- Witness for C5's amended gate at a concrete environment and state. -/
theorem c5_witness :
    mount_filesystems mountEnvOff fsC5 "" false = ([], .ok fsC5) ∧
    turn_on_swap mountEnvOff fsC5 "" 1 = some ([], .ok fsC5) :=
  c5_flag_gates mountEnvOff fsC5 "" false 1 (by decide)

/-! ## C6: CryptTab.parse -/

/-- C6: `CryptTab.parse` ignores lines without 2 to 4 whitespace-separated
fields after comment-stripping, defaults a missing keyfile field to
`"none"` and missing options to the empty string, and records a mapping
exactly when the devspec resolves to a device. -/
theorem c6_crypttab_parse (resolve : String → Option Device) :
    (∀ maps raw, ¬(2 ≤ (splitWS (stripComment raw)).length ∧
        (splitWS (stripComment raw)).length ≤ 4) →
      cryptTabParseLine resolve maps raw = maps) ∧
    (∀ maps raw name devspec, splitWS (stripComment raw) = [name, devspec] →
      cryptTabParseLine resolve maps raw =
        match resolve devspec with
        | some d => dictInsert name ⟨d, "none", ""⟩ maps
        | none => maps) ∧
    (∀ maps raw name devspec keyfile,
        splitWS (stripComment raw) = [name, devspec, keyfile] →
      cryptTabParseLine resolve maps raw =
        match resolve devspec with
        | some d => dictInsert name ⟨d, keyfile, ""⟩ maps
        | none => maps) ∧
    (∀ maps raw name devspec keyfile options,
        splitWS (stripComment raw) = [name, devspec, keyfile, options] →
      cryptTabParseLine resolve maps raw =
        match resolve devspec with
        | some d => dictInsert name ⟨d, keyfile, options⟩ maps
        | none => maps) := by
  refine ⟨?_, ?_, ?_, ?_⟩
  · intro maps raw hlen
    unfold cryptTabParseLine
    rw [if_neg hlen]
  · intro maps raw name devspec hf
    simp only [cryptTabParseLine, hf]
    simp
  · intro maps raw name devspec keyfile hf
    simp only [cryptTabParseLine, hf]
    simp
  · intro maps raw name devspec keyfile options hf
    simp only [cryptTabParseLine, hf]
    simp

/-- Witness for C6: the line `luks-1 UUID=abcd none none`, with `abcd`
resolving, produces the mapping named `luks-1` with keyfile `"none"`. -/
theorem c6_witness :
    (cryptTabParseLine resolveC6 [] "luks-1 UUID=abcd none none\n" =
      match resolveC6 "UUID=abcd" with
      | some d => dictInsert "luks-1" ⟨d, "none", "none"⟩ []
      | none => []) ∧
    cryptTabParse resolveC6 ["luks-1 UUID=abcd none none\n"] =
      [("luks-1", ⟨devLuks, "none", "none"⟩)] := by
  constructor
  · exact (c6_crypttab_parse resolveC6).2.2.2 [] "luks-1 UUID=abcd none none\n"
      "luks-1" "UUID=abcd" "none" "none" (by decide)
  · decide

/-! ## C7: BlkidTab.parse -/

theorem pyUnpack2_not2 (l : List String) (h : l.length ≠ 2) :
    pyUnpack2 l = .error .valueError := by
  match l with
  | [] => rfl
  | [_] => rfl
  | [_, _] => exact absurd rfl h
  | _ :: _ :: _ :: _ => rfl

theorem splitOnPred_no (p : Char → Bool) :
    ∀ xs, (∀ x ∈ xs, p x = false) → splitOnPred p xs = [xs]
  | [], _ => rfl
  | c :: rest, h => by
    have hc : p c = false := h c (List.mem_cons_self c rest)
    have ih := splitOnPred_no p rest (fun x hx => h x (List.mem_cons_of_mem c hx))
    simp [splitOnPred, hc, ih]

theorem splitOnPred_append (p : Char → Bool) :
    ∀ xs c ys, (∀ x ∈ xs, p x = false) → p c = true →
      splitOnPred p (xs ++ c :: ys) = xs :: splitOnPred p ys
  | [], c, ys, _, hc => by simp [splitOnPred, hc]
  | a :: xs, c, ys, h, hc => by
    have ha : p a = false := h a (List.mem_cons_self a xs)
    have ih :=
      splitOnPred_append p xs c ys (fun x hx => h x (List.mem_cons_of_mem a hx)) hc
    simp [splitOnPred, ha, ih]

theorem strData_append (a b : String) : (a ++ b).data = a.data ++ b.data := rfl

theorem strMk_data (s : String) : String.mk s.data = s := rfl

theorem take_len_append {α : Type} : ∀ (l₁ l₂ : List α), (l₁ ++ l₂).take l₁.length = l₁
  | [], _ => rfl
  | a :: l, l₂ => by simp [take_len_append l l₂]

/-- Splitting `k ++ "=" ++ w` on `=` when neither part contains `=`. -/
theorem pySplitCh_pair (k w : String) (hk : ∀ c ∈ k.data, c ≠ '=')
    (hw : ∀ c ∈ w.data, c ≠ '=') :
    pySplitCh '=' (k ++ "=" ++ w) = [k, w] := by
  unfold pySplitCh
  have hdata : (k ++ "=" ++ w).data = k.data ++ '=' :: w.data := by
    rw [strData_append, strData_append]
    show (k.data ++ ['=']) ++ w.data = k.data ++ '=' :: w.data
    simp
  rw [hdata,
    splitOnPred_append _ k.data '=' w.data
      (fun x hx => decide_eq_false (hk x hx)) (by simp),
    splitOnPred_no _ w.data (fun x hx => decide_eq_false (hw x hx))]
  simp [strMk_data]

/-- Python `("\"" ++ v ++ "\"")[1:-1] = v`. -/
theorem pySlice1m1_quoted (v : String) : pySlice1m1 ("\"" ++ v ++ "\"") = v := by
  unfold pySlice1m1
  have hdata : ("\"" ++ v ++ "\"").data = (Char.ofNat 34) :: (v.data ++ [Char.ofNat 34]) := by
    rw [strData_append, strData_append]
    show ((Char.ofNat 34) :: v.data ++ [Char.ofNat 34]) = _
    simp
  rw [hdata]
  simp only [List.drop_succ_cons, List.drop_zero, List.length_append,
    List.length_singleton, Nat.add_sub_cancel]
  rw [take_len_append]

/-- C7: `BlkidTab.parse` ignores every line not beginning with
`<device `; a well-formed `key="value"` pair is recorded with exactly one
leading and one trailing character stripped from the value; a malformed
pair (not splitting into exactly two parts on `=`, the one operation
whose `ValueError` the code catches) is skipped without affecting the
processing of the remaining pairs; the parse is total. -/
theorem c7_blkid_parse :
    (∀ tab line, strStartsWith line "<device " = false →
      blkidParseLine tab line = tab) ∧
    (∀ attrs rest k v, (∀ c ∈ k.data, c ≠ '=') → (∀ c ∈ v.data, c ≠ '=') →
      blkidPairs attrs ((k ++ "=" ++ ("\"" ++ v ++ "\"")) :: rest) =
        blkidPairs (dictInsert k v attrs) rest) ∧
    (∀ attrs pre post bad, (pySplitCh '=' bad).length ≠ 2 →
      blkidPairs attrs (pre ++ bad :: post) = blkidPairs attrs (pre ++ post)) := by
  refine ⟨?_, ?_, ?_⟩
  · intro tab line h
    simp [blkidParseLine, h]
  · intro attrs rest k v hk hv
    have hq : ∀ c ∈ ("\"" ++ v ++ "\"").data, c ≠ '=' := by
      intro c hc
      rw [strData_append, strData_append] at hc
      rcases List.mem_append.mp hc with hc2 | hc2
      · rcases List.mem_append.mp hc2 with hc3 | hc3
        · rcases List.mem_singleton.mp hc3 with rfl
          decide
        · exact hv c hc3
      · rcases List.mem_singleton.mp hc2 with rfl
        decide
    simp only [blkidPairs]
    rw [pySplitCh_pair k _ hk hq]
    show blkidPairs (dictInsert k (pySlice1m1 ("\"" ++ v ++ "\"")) attrs) rest = _
    rw [pySlice1m1_quoted]
  · intro attrs pre post bad hbad
    induction pre generalizing attrs with
    | nil =>
      show blkidPairs attrs (bad :: post) = blkidPairs attrs post
      simp only [blkidPairs]
      rw [pyUnpack2_not2 _ hbad]
    | cons p pre ih =>
      show blkidPairs attrs (p :: (pre ++ bad :: post)) =
        blkidPairs attrs (p :: (pre ++ post))
      simp only [blkidPairs]
      cases hp : pyUnpack2 (pySplitCh '=' p) with
      | ok kv =>
        cases kv with
        | mk k v => exact ih _
      | error e => exact ih _

/-- Witness for C7: a non-device line is ignored, `TYPE="ext4"` is
recorded as `ext4`, and a malformed pair is skipped without losing its
neighbours. -/
theorem c7_witness :
    blkidParseLine [] "garbage" = [] ∧
    blkidPairs [] (("TYPE" ++ "=" ++ ("\"" ++ "ext4" ++ "\"")) :: []) =
      blkidPairs (dictInsert "TYPE" "ext4" []) [] ∧
    blkidPairs [] (["UUID=\"u\""] ++ "BAD" :: ["TYPE=\"x\""]) =
      blkidPairs [] (["UUID=\"u\""] ++ ["TYPE=\"x\""]) :=
  ⟨c7_blkid_parse.1 [] "garbage" (by decide),
   c7_blkid_parse.2.1 [] [] "TYPE" "ext4" (by decide) (by decide),
   c7_blkid_parse.2.2 [] ["UUID=\"u\""] ["TYPE=\"x\""] "BAD" (by decide)⟩

/-! ## C3: mount and unmount ordering -/

theorem mountedOrder_append (a b : List Event) :
    mountedOrder (a ++ b) = mountedOrder a ++ mountedOrder b := by
  simp [mountedOrder, List.filterMap_append]

theorem mountStep_order_sublist (env : MountEnv) (st : FSSet) (rp : String)
    (sr : Bool) (d : Device) :
    List.Sublist (mountedOrder (mountStep env st rp sr d).events) [mpKey d] := by
  unfold mountStep
  repeat' split
  all_goals simp [StepRes.events, mountedOrder]

theorem mountLoop_order_sublist (env : MountEnv) (st : FSSet) (rp : String)
    (sr : Bool) :
    ∀ l, List.Sublist (mountedOrder (mountLoop env st rp sr l).1) (l.map mpKey) := by
  intro l
  induction l with
  | nil => simp [mountLoop, mountedOrder]
  | cons d rest ih =>
    have hstep := mountStep_order_sublist env st rp sr d
    unfold mountLoop
    cases hs : mountStep env st rp sr d with
    | abort evs =>
      rw [hs] at hstep
      simp only [StepRes.events] at hstep
      exact hstep.trans (List.Sublist.cons₂ _ (List.nil_sublist _))
    | skip evs =>
      rw [hs] at hstep
      simp only [StepRes.events] at hstep
      show List.Sublist (mountedOrder (evs ++ (mountLoop env st rp sr rest).1)) _
      rw [mountedOrder_append]
      simpa using List.Sublist.append hstep ih

theorem mount_filesystems_events (env : MountEnv) (st : FSSet) (rp : String)
    (sr : Bool) (hmode : env.installer_mode = true) :
    (mount_filesystems env st rp sr).1 =
      (mountLoop env st rp sr (mountSortedList env st)).1 := by
  unfold mount_filesystems
  rw [if_neg (by simp [hmode])]
  by_cases hr : (mountLoop env st rp sr (mountSortedList env st)).2 = true
  · simp [hr]
  · simp [hr]

theorem mountStep_emits (env : MountEnv) (st : FSSet) (rp : String) (sr : Bool)
    (d : Device) (h : mountEmits env st rp sr d) :
    mountStep env st rp sr d = .skip [.setup d.name, .mounted d.name (mpKey d)] := by
  obtain ⟨h1, h2, h3, h4, h5, h6, h7⟩ := h
  unfold mountStep
  rw [if_neg (by simp [h1, h2]), if_neg h3, if_neg (by rw [h4]; simp), if_neg h5,
    if_neg (by simp [h6]), if_neg (by simp [h7])]

theorem mountLoop_emits (env : MountEnv) (st : FSSet) (rp : String) (sr : Bool) :
    ∀ l, (∀ d ∈ l, mountEmits env st rp sr d) →
      mountedOrder (mountLoop env st rp sr l).1 = l.map mpKey := by
  intro l
  induction l with
  | nil => intro _; simp [mountLoop, mountedOrder]
  | cons d rest ih =>
    intro h
    have hd := mountStep_emits env st rp sr d (h d (List.mem_cons_self _ _))
    unfold mountLoop
    rw [hd]
    show mountedOrder (_ ++ (mountLoop env st rp sr rest).1) = _
    rw [mountedOrder_append, ih (fun x hx => h x (List.mem_cons_of_mem _ hx))]
    simp [mountedOrder]

/-- C3: `mount_filesystems` mounts in ascending lexicographic order of the
mountpoint sort key, `umount_filesystems` tears down in descending order,
and — when the same devices pass both loops' filters and every mount
succeeds — the unmount order is the exact reverse of the mount order. -/
theorem c3_mount_umount_order (env : MountEnv) (st : FSSet) (root_path : String)
    (skip_root : Bool) (swapoff : Bool)
    (hm : ∀ d ∈ mountSortedList env st, mountEmits env st root_path skip_root d)
    (hu : ∀ d ∈ umountSortedList env st, umountPass swapoff d = true)
    (hmode : env.installer_mode = true) :
    (mountedOrder (mount_filesystems env st root_path skip_root).1).Pairwise strLeP ∧
    (umountOrder env st swapoff).Pairwise (fun a b => strLeP b a) ∧
    umountOrder env st swapoff =
      (mountedOrder (mount_filesystems env st root_path skip_root).1).reverse := by
  have hsortM : List.Sorted mpLe (mountSortedList env st) :=
    List.sorted_insertionSort mpLe _
  have hsortU : List.Sorted mpLe (umountSortedList env st) :=
    List.sorted_insertionSort mpLe _
  have hpairM : ((mountSortedList env st).map mpKey).Pairwise strLeP :=
    List.pairwise_map.mpr hsortM
  have hpairU : ((umountSortedList env st).map mpKey).Pairwise strLeP :=
    List.pairwise_map.mpr hsortU
  have hmf := mount_filesystems_events env st root_path skip_root hmode
  have hmOrder :
      mountedOrder (mountLoop env st root_path skip_root (mountSortedList env st)).1 =
        (mountSortedList env st).map mpKey :=
    mountLoop_emits env st root_path skip_root _ hm
  have huOrder : umountOrder env st swapoff =
      ((umountSortedList env st).map mpKey).reverse := by
    unfold umountOrder
    rw [List.filter_eq_self.mpr (fun d hd => hu d (List.mem_reverse.mp hd)),
      List.map_reverse]
  have hperm : List.Perm ((mountSortedList env st).map mpKey)
      ((umountSortedList env st).map mpKey) := by
    apply List.Perm.map
    refine ((List.perm_insertionSort mpLe _).trans ?_).trans
      (List.perm_insertionSort mpLe _).symm
    refine List.Perm.append (List.Perm.append (List.Perm.refl _) ?_) (List.Perm.refl _)
    exact (((((List.Perm.swap st.usb st.selinux [st.run]).cons st.proc).cons
      st.sysfs).cons st.devpts).cons st.devshm).cons st.dev
  have heqMap : (mountSortedList env st).map mpKey =
      (umountSortedList env st).map mpKey :=
    List.eq_of_perm_of_sorted hperm hpairM hpairU
  refine ⟨?_, ?_, ?_⟩
  · rw [hmf]
    exact hpairM.sublist (mountLoop_order_sublist env st root_path skip_root _)
  · rw [huOrder]
    rw [List.pairwise_reverse]
    exact hpairU
  · rw [huOrder, ← heqMap, hmf, hmOrder]

/-- Witness for C3 with filesystems on `/`, `/boot`, `/var`, `/var/log`:
the unmount order is the exact reverse of the mount order, and among
those four mountpoints the mount order is `/`, `/boot`, `/var`,
`/var/log`. -/
theorem c3_witness :
    (∀ d ∈ mountSortedList mountEnvC fsC3, mountEmits mountEnvC fsC3 "" false d) ∧
    (∀ d ∈ umountSortedList mountEnvC fsC3, umountPass true d = true) ∧
    umountOrder mountEnvC fsC3 true =
      (mountedOrder (mount_filesystems mountEnvC fsC3 "" false).1).reverse ∧
    (mountedOrder (mount_filesystems mountEnvC fsC3 "" false).1).filter
        (fun x => (["/", "/boot", "/var", "/var/log"] : List String).contains x) =
      ["/", "/boot", "/var", "/var/log"] ∧
    (umountOrder mountEnvC fsC3 true).filter
        (fun x => (["/", "/boot", "/var", "/var/log"] : List String).contains x) =
      ["/var/log", "/var", "/boot", "/"] := by
  refine ⟨by decide, by decide, ?_, by decide, by decide⟩
  exact (c3_mount_umount_order mountEnvC fsC3 "" false true
    (by decide) (by decide) (by decide)).2.2

/-! ## C1: preservation of unparsed fstab lines -/

theorem parse_one_line_noauto (env : ParseEnv) (tree : List Device)
    (devspec mountpoint fstype options : String)
    (h : (pySplitCh ',' options).contains "noauto" = true) :
    parse_one_line env tree devspec mountpoint fstype options =
      ⟨.error .unrecognized, []⟩ := by
  unfold parse_one_line
  rw [if_pos h]

theorem processLine_noauto (env : ParseEnv) (st : ParseState) (raw s : String)
    (hs : noautoLine raw = some s) :
    processLine env st raw =
      .ok { st with preserve_lines := st.preserve_lines ++ [s] } := by
  simp only [noautoLine] at hs
  split at hs
  case isTrue hlen =>
    split at hs
    case h_1 devspec mp fstype options rest heq =>
      split at hs
      case isTrue hna =>
        injection hs with hs1
        subst hs1
        simp only [processLine]
        rw [heq, if_pos (heq ▸ hlen)]
        simp only [parse_one_line_noauto env st.tree devspec mp fstype options hna]
      case isFalse _ => exact Option.noConfusion hs
    case h_2 => exact Option.noConfusion hs
  case isFalse _ => exact Option.noConfusion hs

theorem processLine_ok_delta (env : ParseEnv) (st : ParseState) (raw : String)
    (st2 : ParseState) (h : processLine env st raw = .ok st2) :
    st2.preserve_lines = st.preserve_lines ∨
    st2.preserve_lines = st.preserve_lines ++ [stripComment raw] := by
  simp only [processLine] at h
  repeat' split at h
  all_goals first
    | exact Except.noConfusion h
    | (injection h with h2; subst h2; simp)

theorem parseLines_preserve (env : ParseEnv) :
    ∀ (ls : List String) (st st2 : ParseState), parseLines env st ls = .ok st2 →
      ∃ tail, st2.preserve_lines = st.preserve_lines ++ tail ∧
        List.Sublist (ls.filterMap noautoLine) tail := by
  intro ls
  induction ls with
  | nil =>
    intro st st2 h
    simp only [parseLines] at h
    injection h with h2
    subst h2
    exact ⟨[], by simp, by simp⟩
  | cons l ls ih =>
    intro st st2 h
    simp only [parseLines] at h
    cases hp : processLine env st l with
    | error e => rw [hp] at h; exact Except.noConfusion h
    | ok st1 =>
      rw [hp] at h
      obtain ⟨tail, ht, hsub⟩ := ih st1 st2 h
      cases hna : noautoLine l with
      | some s =>
        have hcomp := processLine_noauto env st l s hna
        rw [hcomp] at hp
        injection hp with hp1
        refine ⟨s :: tail, ?_, ?_⟩
        · rw [ht, ← hp1]
          simp
        · simp only [List.filterMap_cons, hna]
          exact List.Sublist.cons₂ s hsub
      | none =>
        rcases processLine_ok_delta env st l st1 hp with hδ | hδ
        · refine ⟨tail, by rw [ht, hδ], ?_⟩
          simpa [List.filterMap_cons, hna] using hsub
        · refine ⟨stripComment l :: tail, ?_, ?_⟩
          · rw [ht, hδ]
            simp
          · simp only [List.filterMap_cons, hna]
            exact List.Sublist.cons _ hsub

/-- C1 counterexample: parsing a three-field line together with a noauto
line carrying a trailing comment preserves only the comment-stripped
noauto text: the three-field line is dropped entirely (so it does not
appear in any regenerated output) and the noauto line is not preserved
byte-identically. -/
theorem c1_counterexample :
    (splitWS (stripComment "a b c\n")).length < 4 ∧
    parseLines env0 ⟨[], []⟩ linesC1c =
      .ok ⟨[], ["/dev/x /mnt ext4 noauto 0 0 "]⟩ ∧
    "a b c\n" ∉ (["/dev/x /mnt ext4 noauto 0 0 "] : List String) ∧
    "/dev/x /mnt ext4 noauto 0 0 # hi\n" ∉
      (["/dev/x /mnt ext4 noauto 0 0 "] : List String) :=
  ⟨by decide, by decide, by decide, by decide⟩

/-- C1 (amended): after a successful parse, every line with 4-6
whitespace-separated fields and `noauto` among its options appears
comment-stripped (hence byte-identical exactly when it contains no `#`),
in original relative order, among the lines appended to the preserved
list; the fstab writer emits those preserved lines verbatim after all
generated lines.  Lines with fewer than 4 or more than 6 fields are
dropped, not preserved. -/
theorem c1_preservation (env : ParseEnv) (st0 st1 : ParseState)
    (lines : List String) (h : parseLines env st0 lines = .ok st1)
    (wenv : WriteEnv) (wst : FSSet)
    (hpl : wst.preserve_lines = st1.preserve_lines)
    (hne : fstabDeviceList wenv wst ≠ []) :
    (∃ tail, st1.preserve_lines = st0.preserve_lines ++ tail ∧
      List.Sublist (lines.filterMap noautoLine) tail) ∧
    fstabE wenv wst = .ok (fstabHeader wenv.time_str ++
      String.join ((fstabRows wenv wst).map renderRow) ++
      String.join st1.preserve_lines) := by
  refine ⟨parseLines_preserve env lines st0 st1 h, ?_⟩
  unfold fstabE
  cases hd : fstabDeviceList wenv wst with
  | nil => exact absurd hd hne
  | cons a rest => simp [fstabRows, hd, hpl]

/-- Witness for C1's amended preservation at a one-noauto-line fstab. -/
theorem c1_witness :
    (∃ tail, (⟨[], ["/dev/x /mnt ext4 noauto 0 0\n"]⟩ : ParseState).preserve_lines =
        (⟨[], []⟩ : ParseState).preserve_lines ++ tail ∧
      List.Sublist (linesC1w.filterMap noautoLine) tail) ∧
    fstabE wenvC fsC1w = .ok (fstabHeader wenvC.time_str ++
      String.join ((fstabRows wenvC fsC1w).map renderRow) ++
      String.join (⟨[], ["/dev/x /mnt ext4 noauto 0 0\n"]⟩ : ParseState).preserve_lines) :=
  c1_preservation env0 ⟨[], []⟩ ⟨[], ["/dev/x /mnt ext4 noauto 0 0\n"]⟩ linesC1w
    (by decide) wenvC fsC1w (by decide) (by decide)

/-! ## C2: type mismatch aborts the parse with the device torn down -/

theorem parseLines_append (env : ParseEnv) (xs ys : List String) :
    ∀ st, parseLines env st (xs ++ ys) =
      match parseLines env st xs with
      | .error e => .error e
      | .ok st1 => parseLines env st1 ys := by
  induction xs with
  | nil => intro st; simp [parseLines]
  | cons x xs ih =>
    intro st
    simp only [List.cons_append, parseLines]
    cases processLine env st x with
    | error e => rfl
    | ok st1 => exact ih st1

/-- C2: when an fstab entry's declared fstype is not `auto`, its devspec
resolves to a device, both the device's format type and the declared
type's format type are determinate, and the declared type's format has a
trial mount that fails while its mount type differs from the device's,
`_parse_one_line` raises `FSTabTypeMismatchError` after tearing the
device down (setup then teardown, leaving it inactive), and the error
escapes the whole `parse_fstab` loop, whose `except` clause catches only
`UnrecognizedFSTabEntryError`. -/
theorem c2_type_mismatch (env : ParseEnv) (tree : List Device)
    (devspec mountpoint fstype options : String) (device : Device)
    (hna : (pySplitCh ',' options).contains "noauto" = false)
    (hres : env.resolve_device tree devspec options = some device)
    (hauto : fstype ≠ "auto")
    (hdt : (device.fmt.type).isSome = true)
    (hft : ((env.get_format_ex fstype device.path).type).isSome = true)
    (htm : (env.get_format_ex fstype device.path).has_test_mount = true)
    (hdiff : (env.get_format_ex fstype device.path).mountTypeAttr ≠
      device.fmt.mountTypeAttr)
    (hfail : (env.get_format_ex fstype device.path).test_mount_ok = false) :
    parse_one_line env tree devspec mountpoint fstype options =
      ⟨.error (.typeMismatch (mismatchMsg mountpoint device.fmt.mountTypeAttr
          (env.get_format_ex fstype device.path).mountTypeAttr)),
        [.setup device.name, .teardown device.name]⟩ ∧
    finalActive device.name true
      (parse_one_line env tree devspec mountpoint fstype options).events = false ∧
    (∀ (st st1 : ParseState) (pre post : List String) (raw : String)
        (rest : List String),
      splitWS (stripComment raw) = devspec :: mountpoint :: fstype :: options :: rest →
      rest.length ≤ 2 →
      parseLines env st pre = .ok st1 → st1.tree = tree →
      parseLines env st (pre ++ raw :: post) =
        .error (mismatchMsg mountpoint device.fmt.mountTypeAttr
          (env.get_format_ex fstype device.path).mountTypeAttr)) := by
  have hdt2 : device.fmt.type ≠ none := Option.isSome_iff_ne_none.mp hdt
  have hft2 : (env.get_format_ex fstype device.path).type ≠ none :=
    Option.isSome_iff_ne_none.mp hft
  have hmain : parse_one_line env tree devspec mountpoint fstype options =
      ⟨.error (.typeMismatch (mismatchMsg mountpoint device.fmt.mountTypeAttr
          (env.get_format_ex fstype device.path).mountTypeAttr)),
        [.setup device.name, .teardown device.name]⟩ := by
    unfold parse_one_line
    rw [if_neg (by rw [hna]; exact Bool.false_ne_true)]
    simp only [hres]
    rw [if_neg (fun hc => hc.2.elim hdt2 hft2),
      if_pos ⟨htm, hauto, hdiff⟩, if_neg (by simp [hfail])]
    rfl
  refine ⟨hmain, ?_, ?_⟩
  · rw [hmain]
    simp [finalActive]
  · intro st st1 pre post raw rest hsplit hrest hpre htree
    rw [parseLines_append env pre (raw :: post) st, hpre]
    have hproc : processLine env st1 raw =
        .error (mismatchMsg mountpoint device.fmt.mountTypeAttr
          (env.get_format_ex fstype device.path).mountTypeAttr) := by
      simp only [processLine, hsplit]
      rw [if_pos (by simp; omega)]
      simp only [htree, hmain]
    simp only [parseLines]
    rw [hproc]

/-- Witness for C2: an `ext4` entry whose device probes as `xfs` with a
failing trial mount raises the mismatch error, leaves the device torn
down, and aborts the surrounding parse. -/
theorem c2_witness :
    parse_one_line envC2 [devC2] "/dev/sdb1" "/mnt" "ext4" "defaults" =
      ⟨.error (.typeMismatch "/mnt: detected as xfs, fstab says ext4"),
        [.setup "sdb1", .teardown "sdb1"]⟩ ∧
    finalActive "sdb1" true
      (parse_one_line envC2 [devC2] "/dev/sdb1" "/mnt" "ext4" "defaults").events
        = false ∧
    parseLines envC2 ⟨[devC2], []⟩
        (["# comment line\n"] ++ "/dev/sdb1 /mnt ext4 defaults 0 0\n" :: []) =
      .error "/mnt: detected as xfs, fstab says ext4" := by
  have H := c2_type_mismatch envC2 [devC2] "/dev/sdb1" "/mnt" "ext4" "defaults" devC2
    (by decide) (by decide) (by decide) (by decide) (by decide) (by decide)
    (by decide) (by decide)
  exact ⟨H.1, H.2.1,
    H.2.2 ⟨[devC2], []⟩ ⟨[devC2], []⟩ ["# comment line\n"] []
      "/dev/sdb1 /mnt ext4 defaults 0 0\n" ["0", "0"] (by decide) (by decide)
      (by decide) rfl⟩

end Blivet

